import Mathlib

/-!
Verification of the `isone_api` repository: a shallow embedding of
`isone_web_api/json_parser.py`, `isone_web_api/endpoints.py`,
`isone_web_api/endpoint_paths.py` and `isone_web_api/api_client.py`,
together with theorems settling the specification's claims about them.
-/

/-- A single quote character, used to build Python error message strings. -/
def pyQuote : String := String.singleton (Char.ofNat 39)

/-- JSON-like Python values: `None`, booleans, numbers, strings, lists and
dicts (a dict is a key-ordered association list, as Python dicts preserve
insertion order).  Numbers are modelled as integers: every document the
repository's claims exercise carries integer payloads, and Python integer
truthiness (`0` is falsy) is what the flattener's `if not nested_data`
check observes. -/
inductive Json where
  | null : Json
  | bool (b : Bool) : Json
  | num (n : Int) : Json
  | str (s : String) : Json
  | arr (elems : List Json) : Json
  | obj (kvs : List (String × Json)) : Json
deriving Repr

/-- Python exceptions the embedded code can raise, each carrying the
message (for `KeyError`, the single argument) the source constructs. -/
inductive PyErr where
  | keyError (msg : String) : PyErr
  | typeError (msg : String) : PyErr
  | attributeError (msg : String) : PyErr
  | valueError (msg : String) : PyErr
  | indexError (msg : String) : PyErr
  | httpError (status : Nat) : PyErr
deriving Repr

/-- Python truthiness on JSON-like values: `None`, `False`, `0`, `""`,
`[]` and `{}` are falsy, everything else truthy. -/
def truthy : Json → Bool
  | .null => false
  | .bool b => b
  | .num n => n != 0
  | .str s => s != ""
  | .arr elems => !elems.isEmpty
  | .obj kvs => !kvs.isEmpty

/-- First-match lookup in an association list (Python dict lookup; dict
keys are unique, so first match is the match). -/
def lookupKey (key : String) : List (String × Json) → Option Json
  | [] => none
  | (k, v) :: rest => if k = key then some v else lookupKey key rest

/-- The Python type name of a JSON-like value, as it appears in
`AttributeError` messages. -/
def pyTypeName : Json → String
  | .null => "NoneType"
  | .bool _ => "bool"
  | .num _ => "int"
  | .str _ => "str"
  | .arr _ => "list"
  | .obj _ => "dict"

/-- `nested_data.get(key, [])`: dict lookup defaulting to the empty list;
on a non-dict it raises `AttributeError` (only dicts have `.get`). -/
def getDefaultList (cur : Json) (key : String) : Except PyErr Json :=
  match cur with
  | .obj kvs => .ok ((lookupKey key kvs).getD (.arr []))
  | v => .error (.attributeError
      (pyQuote ++ pyTypeName v ++ pyQuote ++ " object has no attribute " ++ pyQuote ++ "get" ++ pyQuote))

/-- The message of the `KeyError` raised by `parse_json_response`:
`f"Key '{key}' not found in the provided data."` — a function of the
offending key alone. -/
def keyErrMsg (key : String) : String :=
  "Key " ++ pyQuote ++ key ++ pyQuote ++ " not found in the provided data."

/-- One iteration of the traversal loop in `parse_json_response`:
`nested_data = nested_data.get(key, []); if not nested_data: raise KeyError(...)`. -/
def walkStep (cur : Json) (key : String) : Except PyErr Json :=
  match getDefaultList cur key with
  | .error e => .error e
  | .ok v => if truthy v then .ok v else .error (.keyError (keyErrMsg key))

/-- The whole `for key in record_path:` loop of `parse_json_response`. -/
def walk (data : Json) : List String → Except PyErr Json
  | [] => .ok data
  | key :: rest =>
    match walkStep data key with
    | .ok v => walk v rest
    | .error e => .error e

/-- Dot-joining of nested keys as in `pandas.json_normalize` (default
separator `"."`); the top-level prefix is empty. -/
def joinKey (pre k : String) : String :=
  if pre = "" then k else pre ++ "." ++ k

mutual

/-- `pandas.json_normalize`'s record flattening (`nested_to_record`):
a dict value recurses with the dot-joined prefix, any other value —
scalars, lists, `None` — stays as a single field. -/
def flattenJson (pre : String) : Json → List (String × Json)
  | .obj kvs => flattenKVs pre kvs
  | v => [(pre, v)]

/-- Flattening of a dict's key/value pairs, in order; an empty nested
dict contributes no fields. -/
def flattenKVs (pre : String) : List (String × Json) → List (String × Json)
  | [] => []
  | (k, v) :: rest => flattenJson (joinKey pre k) v ++ flattenKVs pre rest

end

/-- First-seen-order deduplication, the column order `pandas` produces
when taking the union of field names across records. -/
def dedupFirst (l : List String) : List String :=
  l.foldl (fun acc x => if x ∈ acc then acc else acc ++ [x]) []

/-- A pandas `DataFrame` as the flattener produces it: ordered column
labels and rows of cells; a `none` cell is a missing value (`NaN`). -/
structure Table where
  columns : List String
  rows : List (List (Option Json))
deriving Repr

/-- Is this value a Python dict? -/
def isObj : Json → Bool
  | .obj _ => true
  | _ => false

/-- The key/value pairs of a dict (`[]` on any other value). -/
def objKvs : Json → List (String × Json)
  | .obj kvs => kvs
  | _ => []

/-- The union, in first-seen order, of the dot-joined field names of the
flattened records — `pandas.json_normalize`'s column set. -/
def unionKeys (records : List Json) : List String :=
  dedupFirst (records.flatMap (fun r => (flattenKVs "" (objKvs r)).map Prod.fst))

/-- The flattened fields of one record. -/
def flatRecord (r : Json) : List (String × Json) :=
  flattenKVs "" (objKvs r)

/-- `pandas.json_normalize(records)`: each array element becomes one row;
columns are the first-seen union of dot-joined field names; a field
absent from a record yields a missing cell in that record's row.  On a
list with a non-dict element, pandas fails iterating the record's items
(`AttributeError`); an empty list yields the empty 0-row, 0-column frame. -/
def json_normalize (records : List Json) : Except PyErr Table :=
  if records.all isObj then
    let cols := unionKeys records
    .ok { columns := cols
          rows := records.map (fun r => cols.map (fun c => lookupKey c (flatRecord r))) }
  else
    .error (.attributeError
      (pyQuote ++ "int" ++ pyQuote ++ " object has no attribute " ++ pyQuote ++ "items" ++ pyQuote))

/-- Is this value a scalar in pandas' sense (not a list, not a dict)? -/
def isScalar : Json → Bool
  | .arr _ => false
  | .obj _ => false
  | _ => true

/-- The length of a list value (`0` for non-lists; used only on lists). -/
def arrLen : Json → Nat
  | .arr elems => elems.length
  | _ => 0

/-- The `i`-th cell a dict-of-columns `DataFrame` takes from value `v`:
element `i` of a list column, the broadcast scalar otherwise. -/
def colCell (v : Json) (i : Nat) : Option Json :=
  match v with
  | .arr elems => elems.get? i
  | w => some w

/-- `pandas.DataFrame(data)` on the shapes the repository's claims
exercise, mirroring pandas' constructor:
* `None` and empty containers give the empty frame;
* a list of dicts gives one row per dict, columns the first-seen union of
  top-level keys (no nested flattening), absent keys missing cells;
* a list of scalars gives a single column, labelled `0` by pandas and
  rendered here as `"0"`;
* a dict whose values are all scalars raises
  `ValueError: If using all scalar values, you must pass an index`;
* a dict of equal-length list columns (scalars broadcast) gives that
  column table; unequal lengths raise `ValueError`;
* a bare scalar raises `ValueError: DataFrame constructor not properly called!`.
Dict values that are themselves dicts (pandas Series alignment) and lists
mixing dicts, lists and scalars are outside the modelled fragment and are
mapped to the constructor's `ValueError`; no claim exercises them. -/
def dataFrame : Json → Except PyErr Table
  | .null => .ok { columns := [], rows := [] }
  | .arr [] => .ok { columns := [], rows := [] }
  | .arr elems =>
    if elems.all isObj then
      let cols := dedupFirst (elems.flatMap (fun r => (objKvs r).map Prod.fst))
      .ok { columns := cols
            rows := elems.map (fun r => cols.map (fun c => lookupKey c (objKvs r))) }
    else if elems.all isScalar then
      .ok { columns := ["0"], rows := elems.map (fun v => [some v]) }
    else
      .error (.valueError "DataFrame constructor not properly called!")
  | .obj [] => .ok { columns := [], rows := [] }
  | .obj kvs =>
    if kvs.all (fun kv => isScalar kv.2) then
      .error (.valueError "If using all scalar values, you must pass an index")
    else if kvs.all (fun kv => isScalar kv.2 || (kv.2 matches .arr _)) then
      let lens := (kvs.filter (fun kv => kv.2 matches .arr _)).map (fun kv => arrLen kv.2)
      match lens with
      | [] => .error (.valueError "If using all scalar values, you must pass an index")
      | n :: ns =>
        if ns.all (fun m => m = n) then
          .ok { columns := kvs.map Prod.fst
                rows := (List.range n).map (fun i => kvs.map (fun kv => colCell kv.2 i)) }
        else
          .error (.valueError "All arrays must be of the same length")
    else
      .error (.valueError "DataFrame constructor not properly called!")
  | _ => .error (.valueError "DataFrame constructor not properly called!")

/-- The tail of `parse_json_response`'s non-empty-path branch:
`isinstance(nested_data, list)` selects `pd.json_normalize`, anything
else raises `TypeError("Nested data is not a list.")`. -/
def normalizeTerminal : Json → Except PyErr Table
  | .arr elems => json_normalize elems
  | _ => .error (.typeError "Nested data is not a list.")

/-- `parse_json_response(data, record_path)` from
`isone_web_api/json_parser.py`: with a truthy (non-empty) `record_path`,
walk the path with `.get(key, [])` raising `KeyError` on any falsy
intermediate, then `pd.json_normalize` the terminal list or raise
`TypeError("Nested data is not a list.")`; with an empty/absent path
(Python `None` or `[]`, both falsy), `pd.DataFrame(data)`. -/
def parse_json_response (data : Json) (record_path : List String) : Except PyErr Table :=
  match record_path with
  | [] => dataFrame data
  | _ :: _ => (walk data record_path).bind normalizeTerminal

/-- Does the flattener's result stay inside the spec's documented error
taxonomy (`PathNotFound` = `KeyError`, `ShapeError` = `TypeError`) or
succeed? -/
def inTaxonomy : Except PyErr Table → Bool
  | .ok _ => true
  | .error (.keyError _) => true
  | .error (.typeError _) => true
  | .error _ => false

/-- Is the computation's result a success? -/
def exceptIsOk {ε α : Type} : Except ε α → Bool
  | .ok _ => true
  | .error _ => false

/-- The numeric value of a decimal digit character. -/
def charVal (c : Char) : Nat := c.toNat - 48

/-- Zero-padded two-digit decimal rendering (`%m`/`%d` of `strftime`). -/
def pad2 (n : Nat) : List Char :=
  [Nat.digitChar (n / 10), Nat.digitChar (n % 10)]

/-- Zero-padded four-digit decimal rendering (`%Y` of `strftime`).
CPython renders `%Y` via the platform `strftime`; the documented
`YYYY` form (zero-padded to four digits, exact for all years 1000-9999)
is modelled here. -/
def pad4 (n : Nat) : List Char :=
  [Nat.digitChar (n / 1000), Nat.digitChar (n / 100 % 10),
   Nat.digitChar (n / 10 % 10), Nat.digitChar (n % 10)]

/-- `parsed_date.strftime("%Y%m%d")`: the canonical eight-character
zero-padded rendering of a date. -/
def renderYmd (y m d : Nat) : List Char := pad4 y ++ pad2 m ++ pad2 d

/-- The `%d` token of CPython's `_strptime`, the ordered regex
alternation `3[01]|[12]\d|0[1-9]|[1-9]`.  As the final token of the
pattern it must consume the whole remaining input for the overall match
to cover the string (`strptime` rejects a match that stops early). -/
def dTok : List Char → Option Nat
  | [c₁, c₂] =>
    if c₁ = '3' then
      if c₂ = '0' ∨ c₂ = '1' then some (30 + charVal c₂) else none
    else if c₁ = '1' ∨ c₁ = '2' then
      if c₂.isDigit then some (10 * charVal c₁ + charVal c₂) else none
    else if c₁ = '0' then
      if '1' ≤ c₂ ∧ c₂ ≤ '9' then some (charVal c₂) else none
    else none
  | [c] => if '1' ≤ c ∧ c ≤ '9' then some (charVal c) else none
  | _ => none

/-- The `%m` token (`1[0-2]|0[1-9]|[1-9]`) followed by `%d`, with the
regex engine's ordered backtracking: each `%m` alternative is tried in
order, and succeeds only if the `%d` token completes on the rest. -/
def mdTok (l : List Char) : Option (Nat × Nat) :=
  (match l with
   | '1' :: c :: rest =>
     if c = '0' ∨ c = '1' ∨ c = '2' then
       (dTok rest).map (fun d => (10 + charVal c, d))
     else none
   | _ => none) <|>
  (match l with
   | '0' :: c :: rest =>
     if '1' ≤ c ∧ c ≤ '9' then (dTok rest).map (fun d => (charVal c, d)) else none
   | _ => none) <|>
  (match l with
   | c :: rest =>
     if '1' ≤ c ∧ c ≤ '9' then (dTok rest).map (fun d => (charVal c, d)) else none
   | _ => none)

/-- `datetime.strptime(s, "%Y%m%d")`'s matching phase: `%Y` is exactly
four decimal digits, then `%m%d` as above, and the match must span the
whole string.  CPython's `\d` also admits non-ASCII decimal digits;
those inputs always fail the validator's byte-for-byte re-render check,
so the model folds that rejection into the parse (same accept/reject
behaviour on every string). -/
def strptimeYmd : List Char → Option (Nat × Nat × Nat)
  | c₁ :: c₂ :: c₃ :: c₄ :: rest =>
    if c₁.isDigit ∧ c₂.isDigit ∧ c₃.isDigit ∧ c₄.isDigit then
      (mdTok rest).map (fun md =>
        (1000 * charVal c₁ + 100 * charVal c₂ + 10 * charVal c₃ + charVal c₄, md))
    else none
  | _ => none

/-- Is year `y` a Gregorian leap year (Python `calendar.isleap`)? -/
def isLeap (y : Nat) : Bool :=
  (y % 4 = 0 && y % 100 != 0) || y % 400 = 0

/-- Days in month `m` of year `y` (`datetime`'s calendar). -/
def daysInMonth (y m : Nat) : Nat :=
  if m = 2 then (if isLeap y then 29 else 28)
  else if m = 4 ∨ m = 6 ∨ m = 9 ∨ m = 11 then 30
  else 31

/-- The dates `datetime(y, m, d)` accepts: years `MINYEAR..MAXYEAR`
(1..9999), real calendar months and days. -/
def isValidDate (y m d : Nat) : Bool :=
  1 ≤ y && y ≤ 9999 && 1 ≤ m && m ≤ 12 && 1 ≤ d && d ≤ daysInMonth y m

/-- `validate_date_format` from `isone_web_api/endpoints.py`: strict
`strptime` against `"%Y%m%d"` (a parse failure, including an invalid
calendar date, raises `ValueError` with the "correct format" message),
then the round-trip check `parsed_date.strftime("%Y%m%d") != date_text`
(a mismatch raises `ValueError` with the "strict format" message);
success returns nothing. -/
def validate_date_format (date_text : String) : Except String Unit :=
  match strptimeYmd date_text.data with
  | none =>
    .error ("The date " ++ date_text ++ " is not in the correct format YYYYMMDD.")
  | some (y, m, d) =>
    if isValidDate y m d then
      if renderYmd y m d = date_text.data then .ok ()
      else .error ("The date " ++ date_text ++ " is not in the strict format YYYYMMDD.")
    else
      .error ("The date " ++ date_text ++ " is not in the correct format YYYYMMDD.")

/-- The spec's canonical form: exactly the strings that are the
zero-padded `YYYYMMDD` rendering of a real calendar date. -/
def isCanonicalYYYYMMDD (s : String) : Prop :=
  ∃ y m d, isValidDate y m d = true ∧ s.data = renderYmd y m d

/-- The `{` character (written by code point to keep it out of string
literals). -/
def lbrace : Char := Char.ofNat 123

/-- The `}` character. -/
def rbrace : Char := Char.ofNat 125

/-- `str(v)` for the strings stored as template parameters: Python's
`repr` inside a dict display, `'v'`. -/
def pyReprStr (v : String) : String := pyQuote ++ v ++ pyQuote

/-- `str(d)` for a dict of strings: `{'k': 'v', ...}` — the single
positional argument `create_endpoint_url` hands to `str.format`. -/
def pyStrOfDict (kvs : List (String × String)) : String :=
  String.singleton lbrace ++
    String.intercalate ", " (kvs.map (fun kv => pyReprStr kv.1 ++ ": " ++ pyReprStr kv.2)) ++
    String.singleton rbrace

/-- `APIEndpoint` from `isone_web_api/endpoint_paths.py`: the endpoint
URL template and the JSON payload record path. -/
structure APIEndpoint where
  endpoint_url : String
  json_payload_record_path : List String

/-- The shipped `DailyFuelMix` endpoint descriptor. -/
def DailyFuelMix : APIEndpoint :=
  { endpoint_url := "genfuelmix/day/{day}"
    json_payload_record_path := ["GenFuelMixes", "GenFuelMix"] }

mutual

/-- `template.format(arg)` with a single positional argument and no
keyword arguments, as `create_endpoint_url` calls it.  Literal text is
copied; `\x7b\x7b` and `\x7d\x7d` escape to single braces; a bare `\x7d`
is a `ValueError`; on `\x7b` the replacement field is scanned by
`pyFormatField`. -/
def pyFormat1 (arg : String) : List Char → Except PyErr String
  | [] => .ok ""
  | c :: rest =>
    if c = lbrace then
      match rest with
      | [] => .error (.valueError ("Single " ++ pyQuote ++ String.singleton lbrace ++ pyQuote ++ " encountered in format string"))
      | c' :: rest' =>
        if c' = lbrace then (String.singleton lbrace ++ ·) <$> pyFormat1 arg rest'
        else pyFormatField arg [] (c' :: rest')
    else if c = rbrace then
      match rest with
      | [] => .error (.valueError ("Single " ++ pyQuote ++ String.singleton rbrace ++ pyQuote ++ " encountered in format string"))
      | c' :: rest' =>
        if c' = rbrace then (String.singleton rbrace ++ ·) <$> pyFormat1 arg rest'
        else .error (.valueError ("Single " ++ pyQuote ++ String.singleton rbrace ++ pyQuote ++ " encountered in format string"))
    else (String.singleton c ++ ·) <$> pyFormat1 arg rest

/-- Scan a replacement field up to its closing `\x7d` (`acc` holds the
field name read so far, reversed).  An empty or `0` field name refers to
the one positional argument; any other all-digit name is an out-of-range
positional index (`IndexError`); any remaining name is a keyword lookup,
and with no keyword arguments supplied it raises `KeyError(name)` —
which is how `"genfuelmix/day/\x7bday\x7d".format(parameters)` fails. -/
def pyFormatField (arg : String) (acc : List Char) : List Char → Except PyErr String
  | [] => .error (.valueError ("Single " ++ pyQuote ++ String.singleton lbrace ++ pyQuote ++ " encountered in format string"))
  | c :: rest =>
    if c = rbrace then
      let fld := acc.reverse
      if fld = [] ∨ fld = ['0'] then (fun s => arg ++ s) <$> pyFormat1 arg rest
      else if fld.all Char.isDigit then
        .error (.indexError "Replacement index 1 out of range for positional args tuple")
      else .error (.keyError (String.mk fld))
    else pyFormatField arg (c :: acc) rest

end

/-- `create_endpoint_url` from `isone_web_api/endpoint_paths.py`:
`endpoint.endpoint_url.format(parameters)` — note the parameters dict is
passed to `format` as a single positional argument, not splatted as
keyword arguments. -/
def create_endpoint_url (endpoint : APIEndpoint) (parameters : List (String × String)) :
    Except PyErr String :=
  pyFormat1 (pyStrOfDict parameters) endpoint.endpoint_url.data

/-- HTTP basic-authentication credentials (`requests.auth.HTTPBasicAuth`). -/
structure HTTPBasicAuth where
  username : String
  password : String
deriving Repr

/-- The one outbound request `requests.get(url, auth=..., headers=...,
params=...)` issues. -/
structure HttpRequest where
  method : String
  url : String
  headers : List (String × String)
  auth : Option HTTPBasicAuth
  params : Option (List (String × String))
deriving Repr

/-- A transport-level response: status code, the parsed JSON body (the
model treats the body as already-parsed JSON) and the raw text body. -/
structure HttpResponse where
  status : Nat
  jsonBody : Json
  textBody : String

/-- The result of `get_data`: parsed JSON (`response.json()`) for the
`"json"` format, raw text (`response.text`) otherwise. -/
inductive ApiData where
  | jsonData (j : Json) : ApiData
  | textData (t : String) : ApiData
deriving Repr

/-- `ISONEClient`: holds the credential pair loaded at construction. -/
structure ISONEClient where
  auth : HTTPBasicAuth

/-- `ISONEClient.BASE_URL`. -/
def BASE_URL : String := "https://webservices.iso-ne.com/api/v1.1"

/-- `ISONEClient.get_data(endpoint, params, file_format)`: sets
`Accept: application/{file_format}`, builds
`{BASE_URL}/{endpoint}.{file_format}`, performs one GET with basic auth
(the network is the explicit `transport` function), raises for a
4xx/5xx status (`response.raise_for_status()`), and returns the parsed
JSON body or the raw text.  The returned list is the trace of requests
issued — exactly one per invocation. -/
def get_data (client : ISONEClient) (transport : HttpRequest → HttpResponse)
    (endpoint : String) (params : Option (List (String × String)) := none)
    (file_format : String := "json") : List HttpRequest × Except PyErr ApiData :=
  let headers := [("Accept", "application/" ++ file_format)]
  let url := BASE_URL ++ "/" ++ endpoint ++ "." ++ file_format
  let req : HttpRequest :=
    { method := "GET", url := url, headers := headers
      auth := some client.auth, params := params }
  let response := transport req
  let result : Except PyErr ApiData :=
    if 400 ≤ response.status ∧ response.status < 600 then
      .error (.httpError response.status)
    else if file_format = "json" then .ok (.jsonData response.jsonBody)
    else .ok (.textData response.textBody)
  ([req], result)

/-- `DailyFuelMixDataRetriever.retrieve_data(day)` from
`isone_web_api/endpoints.py`: validates the date (raising `ValueError`
before any request when invalid), builds the endpoint
`f"genfuelmix/day/{day}"` and delegates to `get_data` with the default
JSON format. -/
def retrieve_data (client : ISONEClient) (transport : HttpRequest → HttpResponse)
    (day : String) : List HttpRequest × Except PyErr ApiData :=
  match validate_date_format day with
  | .error msg => ([], .error (.valueError msg))
  | .ok () => get_data client transport ("genfuelmix/day/" ++ day)

/-- Is this value a Python list? -/
def isArr : Json → Bool
  | .arr _ => true
  | _ => false

/-- The shapes on which the flattener's non-empty-path branch stays
inside the documented error taxonomy: every `.get` along the path is
called on a dict (until a falsy value stops the walk with `KeyError`),
and a truthy terminal list contains only dicts. -/
def flattenCompatible : Json → List String → Bool
  | _, [] => true
  | .obj kvs, k :: rest =>
    let v := (lookupKey k kvs).getD (.arr [])
    if truthy v then
      match rest with
      | [] =>
        match v with
        | .arr elems => elems.all isObj
        | _ => true
      | _ :: _ => flattenCompatible v rest
    else true
  | _, _ :: _ => false

/-- The standard daily-fuel-mix-shaped example document
`\x7b"A": \x7b"B": [\x7b"x": 1\x7d, \x7b"x": 2, "y": 3\x7d]\x7d\x7d`. -/
def exampleDoc : Json :=
  .obj [("A", .obj [("B", .arr [.obj [("x", .num 1)],
                                .obj [("x", .num 2), ("y", .num 3)]])])]

theorem walk_append (p : List String) (data : Json) (q : List String) :
    walk data (p ++ q) =
      match walk data p with
      | .ok v => walk v q
      | .error e => .error e := by
  induction p generalizing data with
  | nil => simp [walk]
  | cons k ks ih =>
    cases hstep : walkStep data k with
    | ok v => simp [walk, hstep, ih]
    | error e => simp [walk, hstep]

theorem parse_eq_of_ne_nil (data : Json) (path : List String) (h : path ≠ []) :
    parse_json_response data path = (walk data path).bind normalizeTerminal := by
  cases path with
  | nil => exact absurd rfl h
  | cons k ks => rfl

theorem walkStep_falsy (kvs : List (String × Json)) (key : String)
    (h : truthy ((lookupKey key kvs).getD (.arr [])) = false) :
    walkStep (.obj kvs) key = .error (.keyError (keyErrMsg key)) := by
  simp [walkStep, getDefaultList, h]

theorem parse_keyError_of_falsy (data : Json) (pre : List String) (key : String)
    (rest : List String) (kvs : List (String × Json))
    (hpre : walk data pre = .ok (.obj kvs))
    (hfalsy : truthy ((lookupKey key kvs).getD (.arr [])) = false) :
    parse_json_response data (pre ++ key :: rest) =
      .error (.keyError (keyErrMsg key)) := by
  have hne : pre ++ key :: rest ≠ [] := by
    cases pre <;> simp
  rw [parse_eq_of_ne_nil _ _ hne, walk_append, hpre]
  simp [walk, walkStep_falsy kvs key hfalsy, Except.bind]

theorem walk_cons (kvs : List (String × Json)) (k : String) (rest : List String) :
    walk (.obj kvs) (k :: rest) =
      if truthy ((lookupKey k kvs).getD (.arr [])) then
        walk ((lookupKey k kvs).getD (.arr [])) rest
      else .error (.keyError (keyErrMsg k)) := by
  cases htr : truthy ((lookupKey k kvs).getD (.arr [])) <;>
    simp [walk, walkStep, getDefaultList, htr]

/-- C1: for every document in which the record path ends at a non-empty
array of record objects, `parse_json_response` returns a table with one
row per record, columns the first-seen union of the dot-joined keys of
all records, and each cell the record's flattened field value — `none`
(an empty cell) exactly when the key is absent from that record.  In
particular, on the example document with record path `["A", "B"]` the
result has two rows, row 1 `x=1` with an empty `y`, row 2 `x=2, y=3`. -/
theorem c1_flatten_table :
    (∀ (data : Json) (path : List String) (elems : List Json),
      path ≠ [] →
      walk data path = .ok (.arr elems) →
      elems.all isObj = true →
      ∃ t, parse_json_response data path = .ok t ∧
        t.rows.length = elems.length ∧
        t.columns = unionKeys elems ∧
        ∀ (i : Nat) (r : Json), elems[i]? = some r →
          t.rows[i]? = some (t.columns.map (fun c => lookupKey c (flatRecord r)))) ∧
    parse_json_response exampleDoc ["A", "B"] =
      .ok { columns := ["x", "y"]
            rows := [[some (.num 1), none], [some (.num 2), some (.num 3)]] } := by
  constructor
  · intro data path elems hne hwalk hobj
    rw [parse_eq_of_ne_nil _ _ hne, hwalk]
    simp only [Except.bind, normalizeTerminal, json_normalize, hobj, if_true]
    refine ⟨_, rfl, by simp, rfl, ?_⟩
    intro i r hir
    simp [hir]
  · rfl

/-- Witness for C1 at the example document. -/
theorem c1_flatten_table_witness :
    ∃ t, parse_json_response exampleDoc ["A", "B"] = .ok t ∧ t.rows.length = 2 :=
  match c1_flatten_table.1 exampleDoc ["A", "B"]
    [.obj [("x", .num 1)], .obj [("x", .num 2), ("y", .num 3)]]
    (by simp) rfl rfl with
  | ⟨t, h1, h2, _, _⟩ => ⟨t, h1, h2⟩

/-- C2 counterexample: on `\x7b"A": \x7b"B": []\x7d\x7d` with record path
`["A", "B"]`, the flattener does not return a zero-row table — the empty
terminal array is falsy, so the loop raises `KeyError` naming `"B"`. -/
theorem c2_empty_terminal_counterexample :
    parse_json_response (.obj [("A", .obj [("B", .arr [])])]) ["A", "B"] =
      .error (.keyError ("Key " ++ pyQuote ++ "B" ++ pyQuote ++
        " not found in the provided data.")) ∧
    exceptIsOk (parse_json_response (.obj [("A", .obj [("B", .arr [])])]) ["A", "B"]) =
      false :=
  ⟨rfl, rfl⟩

/-- C2 amended: reaching an empty array at the terminal key of a
non-empty record path raises `KeyError` naming that key (the empty array
is falsy), instead of yielding a zero-row table. -/
theorem c2_empty_terminal_amended (data : Json) (pre : List String) (key : String)
    (kvs : List (String × Json))
    (hpre : walk data pre = .ok (.obj kvs))
    (hterm : (lookupKey key kvs).getD (.arr []) = .arr []) :
    parse_json_response data (pre ++ [key]) = .error (.keyError (keyErrMsg key)) :=
  parse_keyError_of_falsy data pre key [] kvs hpre (by rw [hterm]; rfl)

/-- Witness for the amended C2 on a fuel-mix-shaped document. -/
theorem c2_empty_terminal_amended_witness :
    parse_json_response (.obj [("GenFuelMixes", .obj [("GenFuelMix", .arr [])])])
      ["GenFuelMixes", "GenFuelMix"] = .error (.keyError (keyErrMsg "GenFuelMix")) :=
  c2_empty_terminal_amended _ ["GenFuelMixes"] "GenFuelMix"
    [("GenFuelMix", .arr [])] rfl rfl

/-- C4 counterexample: on path `["A", "C"]` against
`\x7b"A": \x7b"B": []\x7d\x7d` the error does name the offending key `"C"`, but
its message contains no `A` — it does not name the path traversed so
far; indeed the result is identical to running path `["C"]` against the
inner document alone. -/
theorem c4_pathnotfound_counterexample :
    parse_json_response (.obj [("A", .obj [("B", .arr [])])]) ["A", "C"] =
      .error (.keyError ("Key " ++ pyQuote ++ "C" ++ pyQuote ++
        " not found in the provided data.")) ∧
    (("Key " ++ pyQuote ++ "C" ++ pyQuote ++ " not found in the provided data.").data.all
      (fun c => c ≠ 'A')) = true ∧
    parse_json_response (.obj [("A", .obj [("B", .arr [])])]) ["A", "C"] =
      parse_json_response (.obj [("B", .arr [])]) ["C"] :=
  ⟨rfl, by decide, rfl⟩

/-- C4 amended: when a key of the record path is absent from the mapping
reached at that step, the flattener fails with `KeyError` whose message
names the offending key only — `Key <key> not found in the provided
data.` — a function of that key alone, independent of the path traversed
so far. -/
theorem c4_pathnotfound_amended (data : Json) (pre : List String) (key : String)
    (rest : List String) (kvs : List (String × Json))
    (hpre : walk data pre = .ok (.obj kvs))
    (habsent : lookupKey key kvs = none) :
    parse_json_response data (pre ++ key :: rest) =
      .error (.keyError ("Key " ++ pyQuote ++ key ++ pyQuote ++
        " not found in the provided data.")) :=
  parse_keyError_of_falsy data pre key rest kvs hpre (by rw [habsent]; rfl)

/-- Witness for the amended C4: a missing middle key. -/
theorem c4_pathnotfound_amended_witness :
    parse_json_response (.obj [("A", .obj [("B", .arr [])])]) ["A", "C", "D"] =
      .error (.keyError ("Key " ++ pyQuote ++ "C" ++ pyQuote ++
        " not found in the provided data.")) :=
  c4_pathnotfound_amended _ ["A"] "C" ["D"] [("B", .arr [])] rfl rfl

/-- C5: when the walk over a non-empty record path succeeds (every
looked-up value truthy) but the terminal value is not a list — a scalar
or a mapping — the flattener fails with
`TypeError("Nested data is not a list.")`; e.g. record path `["A"]`
against `\x7b"A": \x7b"x": 1\x7d\x7d`. -/
theorem c5_shape_error :
    (∀ (data : Json) (path : List String) (v : Json),
      path ≠ [] →
      walk data path = .ok v →
      isArr v = false →
      parse_json_response data path = .error (.typeError "Nested data is not a list.")) ∧
    parse_json_response (.obj [("A", .obj [("x", .num 1)])]) ["A"] =
      .error (.typeError "Nested data is not a list.") := by
  constructor
  · intro data path v hne hwalk harr
    rw [parse_eq_of_ne_nil _ _ hne, hwalk]
    cases v <;> first | rfl | simp [isArr] at harr
  · rfl

/-- Witness for C5 at a scalar terminal. -/
theorem c5_shape_error_witness :
    parse_json_response (.obj [("A", .num 5)]) ["A"] =
      .error (.typeError "Nested data is not a list.") :=
  c5_shape_error.1 _ ["A"] (.num 5) (by simp) rfl rfl

/-- C10: the flattener raises its path error at the first step whose
looked-up value is falsy, terminal step included: with the walk having
reached a mapping, a key that is absent or maps to any falsy value
raises `KeyError` naming that key — so `[]`, `\x7b\x7d`, `""`, `0`, `None`,
`False` and a missing key at the terminal step all produce the path
error, never a shape error and never a zero-row table. -/
theorem c10_falsy_path_error :
    (∀ (data : Json) (pre : List String) (key : String) (rest : List String)
        (kvs : List (String × Json)),
      walk data pre = .ok (.obj kvs) →
      truthy ((lookupKey key kvs).getD (.arr [])) = false →
      parse_json_response data (pre ++ key :: rest) =
        .error (.keyError (keyErrMsg key))) ∧
    (parse_json_response (.obj [("A", .obj [("B", .arr [])])]) ["A", "B"] =
        .error (.keyError (keyErrMsg "B")) ∧
     parse_json_response (.obj [("A", .obj [("B", .obj [])])]) ["A", "B"] =
        .error (.keyError (keyErrMsg "B")) ∧
     parse_json_response (.obj [("A", .obj [("B", .str "")])]) ["A", "B"] =
        .error (.keyError (keyErrMsg "B")) ∧
     parse_json_response (.obj [("A", .obj [("B", .num 0)])]) ["A", "B"] =
        .error (.keyError (keyErrMsg "B")) ∧
     parse_json_response (.obj [("A", .obj [("B", .null)])]) ["A", "B"] =
        .error (.keyError (keyErrMsg "B")) ∧
     parse_json_response (.obj [("A", .obj [("B", .bool false)])]) ["A", "B"] =
        .error (.keyError (keyErrMsg "B")) ∧
     parse_json_response (.obj [("A", .obj [("C", .num 1)])]) ["A", "B"] =
        .error (.keyError (keyErrMsg "B"))) :=
  ⟨fun data pre key rest kvs h1 h2 =>
    parse_keyError_of_falsy data pre key rest kvs h1 h2,
   rfl, rfl, rfl, rfl, rfl, rfl, rfl⟩

/-- Witness for C10 at a falsy (zero) terminal value. -/
theorem c10_falsy_path_error_witness :
    parse_json_response (.obj [("GenFuelMixes", .obj [("GenFuelMix", .num 0)])])
      ["GenFuelMixes", "GenFuelMix"] = .error (.keyError (keyErrMsg "GenFuelMix")) :=
  c10_falsy_path_error.1 _ ["GenFuelMixes"] "GenFuelMix" [] [("GenFuelMix", .num 0)]
    rfl rfl

/-- C9 counterexample: `.get` on a non-dict intermediate crashes with
`AttributeError`, an error outside the documented
`PathNotFound`/`ShapeError` taxonomy — here `\x7b"A": [1]\x7d` with record
path `["A", "B"]`. -/
theorem c9_taxonomy_counterexample :
    parse_json_response (.obj [("A", .arr [.num 1])]) ["A", "B"] =
      .error (.attributeError (pyQuote ++ "list" ++ pyQuote ++
        " object has no attribute " ++ pyQuote ++ "get" ++ pyQuote)) ∧
    inTaxonomy (parse_json_response (.obj [("A", .arr [.num 1])]) ["A", "B"]) = false :=
  ⟨rfl, rfl⟩

/-- C9 amended: on a non-empty record path, the flattener stays inside
the documented taxonomy — it returns a table or fails with `KeyError`
(`PathNotFound`) or `TypeError` (`ShapeError`) — provided every `.get`
along the path is applied to a mapping and a truthy terminal array
contains only mappings (`flattenCompatible`); outside those shapes it
can crash with `AttributeError`, as the counterexample shows. -/
theorem c9_taxonomy_amended :
    ∀ (path : List String) (data : Json), path ≠ [] →
      flattenCompatible data path = true →
      inTaxonomy (parse_json_response data path) = true := by
  intro path
  induction path with
  | nil => intro data h; exact absurd rfl h
  | cons k rest ih =>
    intro data _ hc
    rw [parse_eq_of_ne_nil _ _ (by simp)]
    cases data with
    | obj kvs =>
      rw [walk_cons]
      cases htr : truthy ((lookupKey k kvs).getD (.arr [])) with
      | false => simp [inTaxonomy, Except.bind]
      | true =>
        simp only [htr, if_true]
        cases rest with
        | nil =>
          have hterm : (match (lookupKey k kvs).getD (.arr []) with
              | .arr elems => elems.all isObj
              | _ => true) = true := by
            simpa [flattenCompatible, htr] using hc
          cases hv : (lookupKey k kvs).getD (.arr []) with
          | arr elems =>
            rw [hv] at hterm
            simp only [] at hterm
            simp [walk, Except.bind, normalizeTerminal, json_normalize, hterm, inTaxonomy]
          | null => simp [walk, Except.bind, normalizeTerminal, inTaxonomy]
          | bool b => simp [walk, Except.bind, normalizeTerminal, inTaxonomy]
          | num n => simp [walk, Except.bind, normalizeTerminal, inTaxonomy]
          | str s => simp [walk, Except.bind, normalizeTerminal, inTaxonomy]
          | obj kvs2 => simp [walk, Except.bind, normalizeTerminal, inTaxonomy]
        | cons r rs =>
          have hrec : flattenCompatible ((lookupKey k kvs).getD (.arr [])) (r :: rs) = true := by
            simpa [flattenCompatible, htr] using hc
          have hgoal := ih ((lookupKey k kvs).getD (.arr [])) (by simp) hrec
          rw [parse_eq_of_ne_nil _ _ (by simp)] at hgoal
          exact hgoal
    | null => simp [flattenCompatible] at hc
    | bool b => simp [flattenCompatible] at hc
    | num n => simp [flattenCompatible] at hc
    | str s => simp [flattenCompatible] at hc
    | arr elems => simp [flattenCompatible] at hc

/-- Witness for the amended C9 at the example document. -/
theorem c9_taxonomy_amended_witness :
    inTaxonomy (parse_json_response exampleDoc ["A", "B"]) = true :=
  c9_taxonomy_amended ["A", "B"] exampleDoc (by simp) rfl

/-- C8 counterexample: with an empty record path, a map-of-scalars
document `\x7b"x": 1\x7d` is handed to `pd.DataFrame`, which rejects a dict of
all-scalar values with `ValueError` — the flattener does not succeed on
map-of-scalars shaped documents. -/
theorem c8_empty_path_counterexample :
    parse_json_response (.obj [("x", .num 1)]) [] =
      .error (.valueError "If using all scalar values, you must pass an index") ∧
    exceptIsOk (parse_json_response (.obj [("x", .num 1)]) []) = false :=
  ⟨rfl, rfl⟩

/-- C8 amended: with an empty or absent record path the whole document
is handed to `pd.DataFrame`: an array of record objects yields one row
per record, a non-empty array of scalars yields a single column `0`, but
a non-empty map whose values are all scalars fails with `ValueError`
(pandas demands an index), so map-of-scalars shaped documents are
rejected, not flattened. -/
theorem c8_empty_path_amended :
    (∀ data : Json, parse_json_response data [] = dataFrame data) ∧
    (∀ elems : List Json, elems.all isObj = true →
      ∃ t, dataFrame (.arr elems) = .ok t ∧ t.rows.length = elems.length) ∧
    (∀ elems : List Json, elems ≠ [] → elems.all isScalar = true →
      dataFrame (.arr elems) =
        .ok { columns := ["0"], rows := elems.map (fun v => [some v]) }) ∧
    (∀ kvs : List (String × Json), kvs ≠ [] →
      kvs.all (fun kv => isScalar kv.2) = true →
      dataFrame (.obj kvs) =
        .error (.valueError "If using all scalar values, you must pass an index")) := by
  refine ⟨fun data => rfl, ?_, ?_, ?_⟩
  · intro elems h
    cases elems with
    | nil => exact ⟨{ columns := [], rows := [] }, rfl, rfl⟩
    | cons e es =>
      simp only [dataFrame, h, if_true]
      exact ⟨_, rfl, by simp⟩
  · intro elems hne hs
    cases elems with
    | nil => exact absurd rfl hne
    | cons e es =>
      have he : isScalar e = true := by
        rw [List.all_cons, Bool.and_eq_true] at hs
        exact hs.1
      have hobj : (e :: es).all isObj = false := by
        cases e <;> simp_all [isScalar, isObj]
      simp [dataFrame, hobj, hs]
  · intro kvs hne hs
    cases kvs with
    | nil => exact absurd rfl hne
    | cons kv rest => simp [dataFrame, hs]

/-- Witness for the amended C8: a scalar list succeeds, a scalar map is
rejected. -/
theorem c8_empty_path_amended_witness :
    dataFrame (.arr [.num 1, .num 2]) =
      .ok { columns := ["0"], rows := [[some (.num 1)], [some (.num 2)]] } ∧
    dataFrame (.obj [("x", .num 1)]) =
      .error (.valueError "If using all scalar values, you must pass an index") :=
  ⟨c8_empty_path_amended.2.2.1 [.num 1, .num 2] (by simp) rfl,
   c8_empty_path_amended.2.2.2 [("x", .num 1)] (by simp) rfl⟩

theorem charVal_digitChar : ∀ n : Nat, n < 10 → charVal (Nat.digitChar n) = n := by
  decide

theorem isDigit_digitChar : ∀ n : Nat, n < 10 → (Nat.digitChar n).isDigit = true := by
  decide

theorem mdTok_pad_succ : ∀ a : Nat, a < 12 → ∀ b : Nat, b < 31 →
    mdTok (pad2 (a + 1) ++ pad2 (b + 1)) = some (a + 1, b + 1) := by
  decide

theorem mdTok_pad (m d : Nat) (hm1 : 1 ≤ m) (hm2 : m ≤ 12) (hd1 : 1 ≤ d)
    (hd2 : d ≤ 31) : mdTok (pad2 m ++ pad2 d) = some (m, d) := by
  have h := mdTok_pad_succ (m - 1) (by omega) (d - 1) (by omega)
  have hm : m - 1 + 1 = m := by omega
  have hd : d - 1 + 1 = d := by omega
  rw [hm, hd] at h
  exact h

theorem daysInMonth_le (y m : Nat) : daysInMonth y m ≤ 31 := by
  unfold daysInMonth
  split
  · split <;> omega
  · split <;> omega

theorem isValidDate_bounds (y m d : Nat) (h : isValidDate y m d = true) :
    1 ≤ y ∧ y ≤ 9999 ∧ 1 ≤ m ∧ m ≤ 12 ∧ 1 ≤ d ∧ d ≤ 31 := by
  unfold isValidDate at h
  simp only [Bool.and_eq_true, decide_eq_true_eq] at h
  have := daysInMonth_le y m
  omega

theorem strptimeYmd_render (y m d : Nat) (h : isValidDate y m d = true) :
    strptimeYmd (renderYmd y m d) = some (y, m, d) := by
  obtain ⟨hy1, hy2, hm1, hm2, hd1, hd2⟩ := isValidDate_bounds y m d h
  have e1 : y / 1000 < 10 := by omega
  have e2 : y / 100 % 10 < 10 := by omega
  have e3 : y / 10 % 10 < 10 := by omega
  have e4 : y % 10 < 10 := by omega
  simp only [renderYmd, pad4, List.cons_append, List.nil_append, strptimeYmd,
    isDigit_digitChar _ e1, isDigit_digitChar _ e2, isDigit_digitChar _ e3,
    isDigit_digitChar _ e4, and_self, if_true,
    mdTok_pad m d hm1 hm2 hd1 hd2, Option.map_some',
    charVal_digitChar _ e1, charVal_digitChar _ e2, charVal_digitChar _ e3,
    charVal_digitChar _ e4, Option.some.injEq, Prod.mk.injEq]
  have h10 : y / 10 / 10 = y / 100 := by rw [Nat.div_div_eq_div_mul]
  have h100 : y / 100 / 10 = y / 1000 := by rw [Nat.div_div_eq_div_mul]
  refine ⟨?_, trivial⟩
  omega

/-- C3: the date validator succeeds exactly on strings that are the
canonical zero-padded `YYYYMMDD` rendering of a real calendar date, and
fails with the `ValueError` (`InvalidDateFormat`) message otherwise; in
particular `"20231201"` succeeds while `"2023-12-01"` and `"20231301"`
fail. -/
theorem c3_validate_date_iff_canonical :
    (∀ s : String, validate_date_format s = .ok () ↔ isCanonicalYYYYMMDD s) ∧
    validate_date_format "20231201" = .ok () ∧
    validate_date_format "2023-12-01" =
      .error "The date 2023-12-01 is not in the correct format YYYYMMDD." ∧
    validate_date_format "20231301" =
      .error "The date 20231301 is not in the correct format YYYYMMDD." := by
  refine ⟨?_, rfl, rfl, rfl⟩
  intro s
  constructor
  · intro h
    unfold validate_date_format at h
    split at h
    · cases h
    · rename_i y m d heq
      split at h
      · split at h
        · rename_i hv hr
          exact ⟨y, m, d, hv, hr.symm⟩
        · cases h
      · cases h
  · rintro ⟨y, m, d, hv, hs⟩
    simp [validate_date_format, hs, strptimeYmd_render y m d hv, hv]

/-- Witness for C3: a leap-adjacent canonical date accepted through the
characterisation. -/
theorem c3_validate_date_iff_canonical_witness :
    validate_date_format "19000228" = .ok () :=
  (c3_validate_date_iff_canonical.1 "19000228").mpr
    ⟨1900, 2, 28, by decide, by decide⟩

/-- The one GET request a daily fuel-mix retrieval for `"20231201"` must
issue: base URL joined with `genfuelmix/day/20231201.json`, an
`Accept: application/json` header, and the client's credentials as HTTP
basic authentication. -/
def dailyFuelMixRequest (client : ISONEClient) : HttpRequest :=
  { method := "GET"
    url := "https://webservices.iso-ne.com/api/v1.1/genfuelmix/day/20231201.json"
    headers := [("Accept", "application/json")]
    auth := some client.auth
    params := none }

/-- C6: `retrieve_data` with `day="20231201"` issues exactly one GET
request — URL the base joined with `genfuelmix/day/20231201.json`,
`Accept: application/json`, basic-auth credentials attached — and, when
the response status is not an HTTP error (4xx/5xx), returns the parsed
JSON body of the response. -/
theorem c6_daily_fuelmix_request :
    ∀ (client : ISONEClient) (transport : HttpRequest → HttpResponse),
      (retrieve_data client transport "20231201").1 = [dailyFuelMixRequest client] ∧
      (¬(400 ≤ (transport (dailyFuelMixRequest client)).status ∧
          (transport (dailyFuelMixRequest client)).status < 600) →
        (retrieve_data client transport "20231201").2 =
          .ok (.jsonData (transport (dailyFuelMixRequest client)).jsonBody)) := by
  intro client transport
  refine ⟨rfl, fun hs => ?_⟩
  have hres : (retrieve_data client transport "20231201").2 =
      if 400 ≤ (transport (dailyFuelMixRequest client)).status ∧
          (transport (dailyFuelMixRequest client)).status < 600 then
        .error (.httpError (transport (dailyFuelMixRequest client)).status)
      else .ok (.jsonData (transport (dailyFuelMixRequest client)).jsonBody) := rfl
  rw [hres, if_neg hs]

/-- Witness for C6 with a concrete client and a stub transport returning
status 200. -/
theorem c6_daily_fuelmix_request_witness :
    (retrieve_data { auth := { username := "user", password := "pass" } }
        (fun _ => { status := 200, jsonBody := .num 7, textBody := "" })
        "20231201").1 =
      [dailyFuelMixRequest { auth := { username := "user", password := "pass" } }] ∧
    (retrieve_data { auth := { username := "user", password := "pass" } }
        (fun _ => { status := 200, jsonBody := .num 7, textBody := "" })
        "20231201").2 = .ok (.jsonData (.num 7)) :=
  ⟨(c6_daily_fuelmix_request _ _).1,
   (c6_daily_fuelmix_request { auth := { username := "user", password := "pass" } }
      (fun _ => { status := 200, jsonBody := .num 7, textBody := "" })).2
     (by simp)⟩

/-- C7 (code bug): `create_endpoint_url` passes the parameters dict to
`str.format` as a single positional argument (and its signature reads
`parameters=dict`, a typo for a type annotation), so the named
placeholder `\x7bday\x7d` finds no keyword argument and the call raises
`KeyError: day` instead of substituting — with the parameter supplied,
and equally with the buggy default. -/
theorem c7_create_endpoint_url_keyerror :
    create_endpoint_url DailyFuelMix [("day", "20231201")] =
      .error (.keyError "day") ∧
    create_endpoint_url DailyFuelMix [] = .error (.keyError "day") :=
  ⟨rfl, rfl⟩
